import Mathlib

/-!
Verification of the fallback/validation layer of the content-quality
microservices: the title extractor, summary generator and tag endpoint.

Python strings are modelled as `List Char` (one entry per code point);
Python slicing `s[:n]` is `List.take n`, `str.strip()` is stripping
whitespace from both ends, `str.lower()` is a character-wise ASCII
lowering, and the `in` operator on strings is substring occurrence.
The external LLM collaborator is an oracle parameter: `none` models an
unconfigured backend (`dspy.settings.lm is None`), `some (Except.error e)`
models a raised exception inside the `try` block, and `some (Except.ok v)`
models a structured response with output fields `v`.  Scores are exact
rationals (`0.95 = 19/20`, and so on).
-/

/-- A Python string, one list entry per code point. -/
abbrev Str := List Char

/-- ASCII lowering of one character, as `str.lower()` acts on ASCII text. -/
def lowerChar (c : Char) : Char :=
  if 65 ≤ c.toNat ∧ c.toNat ≤ 90 then Char.ofNat (c.toNat + 32) else c

/-- `str.lower()`: character-wise lowering. -/
def lower (s : Str) : Str := s.map lowerChar

/-- An ASCII uppercase letter (the range `A`–`Z`). -/
def isUpperChar (c : Char) : Bool := decide (65 ≤ c.toNat ∧ c.toNat ≤ 90)

/-- Whitespace as stripped by Python `str.strip()`. -/
def isWS (c : Char) : Bool :=
  c = ' ' || c = '\t' || c = '\n' || c = '\x0d' || c = '\x0b' || c = '\x0c'

/-- The separator class `[\s\-:·]` of the author-mark regex. -/
def isSep (c : Char) : Bool := isWS c || c = '-' || c = ':' || c = '·'

/-- The quote characters stripped from an LLM title by `strip('"\'')`. -/
def isQuote (c : Char) : Bool := c = '"' || c = Char.ofNat 39

/-- Drop the longest suffix whose characters satisfy `p`. -/
def dropEndWhile (p : Char → Bool) (s : Str) : Str :=
  ((s.reverse).dropWhile p).reverse

/-- Python `str.strip()`: remove whitespace from both ends. -/
def pyStrip (s : Str) : Str := dropEndWhile isWS (s.dropWhile isWS)

/-- Python `str.strip('"\'')`: remove quote characters from both ends. -/
def pyStripQuotes (s : Str) : Str := dropEndWhile isQuote (s.dropWhile isQuote)

/-- The normalization `result.title.strip().strip('"\'')` applied to a raw
LLM title before the length gate. -/
def cleanTitle (t : Str) : Str := pyStripQuotes (pyStrip t)

/-- Python `str.startswith`: `leadsWith p s` holds when `p` is an initial
segment of `s`. -/
def leadsWith : Str → Str → Bool
  | [], _ => true
  | _ :: _, [] => false
  | a :: as, b :: bs => a = b && leadsWith as bs

/-- Python `needle in haystack` on strings: substring occurrence. -/
def occursIn (needle : Str) : Str → Bool
  | [] => leadsWith needle []
  | c :: t => leadsWith needle (c :: t) || occursIn needle t

/-- The pattern loop of `_remove_author_prefix`: find the first pattern `p`
with `p` non-empty and `content.lower().startswith(p.lower())`, and replace
`content` by `content[len(p):].strip()`; later patterns are not tried. -/
def stripFirstPattern : List Str → Str → Str
  | [], content => content
  | p :: ps, content =>
      if !p.isEmpty && leadsWith (lower p) (lower content)
      then pyStrip (content.drop p.length)
      else stripFirstPattern ps content

/-- `AITitleExtractor._remove_author_prefix`: try the patterns
`[author, author.lower(), author.replace("@", "")]` in order, strip the
first one that matches case-insensitively at the start, then delete the
leading run of separator characters (`re.sub(r'^[\s\-:·]+', '', content)`). -/
def removeAuthorPrefixFn (content author : Str) : Str :=
  (stripFirstPattern [author, lower author, author.filter (fun c => c ≠ '@')]
    content).dropWhile isSep

/-- A sentence terminator, the class `[.!?]`. -/
def isTerm (c : Char) : Bool := c = '.' || c = '!' || c = '?'

/-- `re.match(r'^([^.!?]+[.!?])', content)`, returning `group(1)`:
the prefix up to and including the first sentence terminator, provided at
least one non-terminator character comes before it. -/
def firstSentence (s : Str) : Option Str :=
  let pre := s.takeWhile (fun c => !(isTerm c))
  if pre.length = 0 then none
  else if pre.length = s.length then none
  else some (pre ++ (s.drop pre.length).take 1)

/-- `content[:80].rsplit(' ', 1)[0]` applied to an arbitrary string `s`:
everything before the last space, or `s` itself when `s` has no space. -/
def rsplitHead (s : Str) : Str :=
  if ' ' ∈ s then (((s.reverse).dropWhile (fun c => c ≠ ' ')).drop 1).reverse
  else s

/-- The last line of `_smart_truncate`:
`content[:80].rsplit(' ', 1)[0] + '...' if len(content) > 80 else content`. -/
def truncCut (content : Str) : Str :=
  if content.length > 80
  then rsplitHead (content.take 80) ++ ("...".toList)
  else content

/-- `AITitleExtractor._smart_truncate`: return the first sentence when it is
at most 80 characters, otherwise cut at the last space inside the first 80
characters and append `...` when the text is longer than 80 characters, and
return the text itself when it is not. -/
def smart_truncate (content : Str) : Str :=
  match firstSentence content with
  | some g => if g.length ≤ 80 then g else truncCut content
  | none => truncCut content

/-- The `TitleResponse` model of the title endpoint. -/
structure TitleResponse where
  title : Str
  is_valid : Bool
  issues : List Str
  confidence : ℚ
deriving DecidableEq, Repr

/-- The fallback branch of `AITitleExtractor.extract`: smart truncation of
the cleaned content with the fixed confidence `0.6`. -/
def fallback_title (clean : Str) : TitleResponse :=
  ⟨smart_truncate clean, true, ["fallback_used".toList], 6/10⟩

/-- `AITitleExtractor.extract`.  The oracle `lm` is the outcome of the LLM
path: `none` when no model is configured, `some (Except.error e)` when the
predictor raises, `some (Except.ok t)` when it returns the title text `t`.
An accepted AI title must have cleaned length in `[10,100]`; every other
outcome falls back to smart truncation. -/
def extract (lm : Option (Except Str Str)) (raw_content author _platform : Str) :
    TitleResponse :=
  let clean := removeAuthorPrefixFn raw_content author
  match lm with
  | some (Except.ok rawTitle) =>
      let title := cleanTitle rawTitle
      if 10 ≤ title.length ∧ title.length ≤ 100
      then ⟨title, true, [], 95/100⟩
      else fallback_title clean
  | _ => fallback_title clean

/-- The `SummaryRequest` model of the summary endpoint. -/
structure SummaryRequest where
  content : Str
  platform : Str
  author : Str := []
  title : Str := []
  image_count : Int := 1
deriving DecidableEq, Repr

/-- The `SummaryResponse` model of the summary endpoint. -/
structure SummaryResponse where
  summary : Str
  key_topics : List Str
  content_type : Str
  quality_score : ℚ
  is_analytical : Bool
deriving DecidableEq, Repr

/-- `AISummaryGenerator._is_just_copy`: the first 50 characters of the
lowered candidate occur inside the first 200 characters of the lowered
original. -/
def is_just_copy (original summary : Str) : Bool :=
  occursIn ((lower summary).take 50) ((lower original).take 200)

/-- `AISummaryGenerator._fallback_summary`: the template
`"Saved from {platform}: {content[:200]}..."` with quality score `0.3`. -/
def fallback_summary (req : SummaryRequest) : SummaryResponse :=
  ⟨("Saved from ".toList) ++ req.platform ++ (": ".toList) ++
      req.content.take 200 ++ ("...".toList),
    [], "unknown".toList, 3/10, false⟩

/-- `AISummaryGenerator.generate`.  The oracle `lm` is the outcome of the
LLM path; `some (Except.ok (s, c))` carries the raw summary `s` and raw
content category `c`.  An accepted AI summary must not be a copy of the
content and must have stripped length in `[50,500]`; every other outcome
falls back to the template summary. -/
def generate (lm : Option (Except Str (Str × Str))) (req : SummaryRequest) :
    SummaryResponse :=
  match lm with
  | some (Except.ok (rawSummary, rawCategory)) =>
      let summary := pyStrip rawSummary
      let category := lower (pyStrip rawCategory)
      let isAnalytical := !(is_just_copy req.content summary)
      if isAnalytical = true ∧ 50 ≤ summary.length ∧ summary.length ≤ 500
      then ⟨summary, [category], category, 9/10, true⟩
      else fallback_summary req
  | _ => fallback_summary req

/-- The structured output fields of the tag-generation signature, after the
`isinstance` coercions of the endpoint (lists of strings and one string). -/
structure TagsRaw where
  primary_tags : List Str
  contextual_tags : List Str
  vibe_tag : Str
  reasoning : Option Str
deriving DecidableEq, Repr

/-- The hierarchical tag structure returned under the `tags` key. -/
structure TagSet where
  primary : List Str
  contextual : List Str
  vibe : Str
deriving DecidableEq, Repr

/-- The `TagsResponse` model of the tag endpoint. -/
structure TagsResponse where
  tags : TagSet
  confidence : ℚ
  reasoning : Option Str
deriving DecidableEq, Repr

/-- The request model of the tag endpoint. -/
structure TagsRequest where
  content : Str
  platform : Str
  image_url : Option Str := none
  title : Option Str := none
  image_count : Option Int := none
deriving DecidableEq, Repr

/-- The tag normalization `t.lower().strip().replace(' ', '-')`. -/
def cleanTag (t : Str) : Str :=
  (pyStrip (lower t)).map (fun c => if c = ' ' then '-' else c)

/-- The fixed 15-term vibe vocabulary named in the tag signature. -/
def vibeVocab : List Str :=
  ["kinetic".toList, "atmospheric".toList, "minimalist".toList,
   "raw".toList, "nostalgic".toList, "elegant".toList, "chaotic".toList,
   "ethereal".toList, "tactile".toList, "visceral".toList,
   "contemplative".toList, "playful".toList, "precise".toList,
   "organic".toList, "geometric".toList]

/-- The `generate_tags` endpoint of the tag service.  `apiKey` models the
`TOGETHER_API_KEY` configuration value: when absent the endpoint raises
`HTTPException(503)` before the LLM is consulted.  `lm` is the outcome of
the `generator(...)` call: an exception becomes `HTTPException(500)`, and a
structured result is cleaned field by field: empty raw tags are filtered
out, each kept tag is lowered, stripped and hyphenated, each list is cut to
two entries, and an empty raw vibe defaults to `"contemplative"`. -/
def generate_tags (apiKey : Option Str) (lm : Except Str TagsRaw)
    (_req : TagsRequest) : Except Nat TagsResponse :=
  match apiKey with
  | none => Except.error 503
  | some _ =>
    match lm with
    | Except.error _ => Except.error 500
    | Except.ok r =>
        let primary := ((r.primary_tags.filter (fun t => !t.isEmpty)).map
          cleanTag).take 2
        let contextual := ((r.contextual_tags.filter (fun t => !t.isEmpty)).map
          cleanTag).take 2
        let vibe := if r.vibe_tag.isEmpty then "contemplative".toList
          else cleanTag r.vibe_tag
        Except.ok ⟨⟨primary, contextual, vibe⟩, 85/100, r.reasoning⟩

deriving instance DecidableEq for Except

/-! ### Helper lemmas about the string model -/

theorem toNat_ofNat_small (m : Nat) (h2 : m ≤ 122) : (Char.ofNat m).toNat = m := by
  have hv : m.isValidChar := Or.inl (by omega)
  unfold Char.ofNat
  rw [dif_pos hv]
  rfl

theorem lowerChar_not_upper (c : Char) : isUpperChar (lowerChar c) = false := by
  unfold lowerChar isUpperChar
  split
  · rename_i h
    have := toNat_ofNat_small (c.toNat + 32) (by omega)
    simp [this]
    omega
  · rename_i h
    simp only [decide_eq_false_iff_not]
    exact h

theorem dropWhile_dropWhile_same (p : Char → Bool) (l : Str) :
    (l.dropWhile p).dropWhile p = l.dropWhile p := by
  induction l with
  | nil => rfl
  | cons a t ih =>
      by_cases h : p a
      · rw [List.dropWhile_cons_of_pos h, ih]
      · rw [List.dropWhile_cons_of_neg h, List.dropWhile_cons_of_neg h]

theorem dropWhile_eq_self_of_head (p : Char → Bool) (l : Str)
    (h : ∀ c ∈ l.take 1, p c = false) : l.dropWhile p = l := by
  cases l with
  | nil => rfl
  | cons a t =>
      have ha : p a = false := h a (by simp)
      rw [List.dropWhile_cons_of_neg (by simp [ha])]

theorem leadsWith_iff (p s : Str) : leadsWith p s = true ↔ ∃ t, s = p ++ t := by
  induction p generalizing s with
  | nil => simp [leadsWith]
  | cons a as ih =>
      cases s with
      | nil => simp [leadsWith]
      | cons b bs =>
          simp only [leadsWith, Bool.and_eq_true, decide_eq_true_eq, ih,
            List.cons_append, List.cons.injEq]
          constructor
          · rintro ⟨rfl, t, rfl⟩
            exact ⟨t, rfl, rfl⟩
          · rintro ⟨t, rfl, rfl⟩
            exact ⟨rfl, t, rfl⟩

theorem occursIn_iff (n h : Str) :
    occursIn n h = true ↔ ∃ pre suf, h = pre ++ n ++ suf := by
  induction h with
  | nil =>
      simp only [occursIn, leadsWith_iff]
      constructor
      · rintro ⟨t, ht⟩
        exact ⟨[], t, by simpa using ht⟩
      · rintro ⟨pre, suf, hps⟩
        have h0 : pre = [] ∧ n = [] ∧ suf = [] := by simpa using hps.symm
        rcases h0 with ⟨rfl, rfl, rfl⟩
        exact ⟨[], by simp⟩
  | cons c t ih =>
      simp only [occursIn, Bool.or_eq_true, leadsWith_iff, ih]
      constructor
      · rintro (⟨s, hs⟩ | ⟨pre, suf, hps⟩)
        · exact ⟨[], s, by simpa using hs⟩
        · exact ⟨c :: pre, suf, by simp [hps]⟩
      · rintro ⟨pre, suf, hps⟩
        cases pre with
        | nil => exact Or.inl ⟨suf, by simpa using hps⟩
        | cons d ds =>
            rw [List.cons_append, List.cons_append] at hps
            injection hps with h1 h2
            exact Or.inr ⟨ds, suf, h2⟩

theorem stripFirstPattern_no_match (ps : List Str) (c : Str)
    (h : ∀ p ∈ ps, p = [] ∨ leadsWith (lower p) (lower c) = false) :
    stripFirstPattern ps c = c := by
  induction ps with
  | nil => rfl
  | cons p rest ih =>
      have hp := h p (by simp)
      have hcond : (!p.isEmpty && leadsWith (lower p) (lower c)) = false := by
        rcases hp with rfl | hlw
        · rfl
        · simp [hlw]
      unfold stripFirstPattern
      rw [hcond]
      exact ih (fun q hq => h q (by simp [hq]))

theorem mem_of_mem_pyStrip (s : Str) (c : Char) (h : c ∈ pyStrip s) : c ∈ s := by
  unfold pyStrip dropEndWhile at h
  have h1 : c ∈ (s.dropWhile isWS).reverse := by
    have := (List.dropWhile_sublist (l := (s.dropWhile isWS).reverse) isWS).mem
      (by simpa using h)
    simpa using this
  exact (List.dropWhile_sublist isWS).mem (by simpa using h1)

theorem cleanTag_chars (t : Str) :
    ∀ c ∈ cleanTag t, c ≠ ' ' ∧ isUpperChar c = false := by
  intro c hc
  unfold cleanTag at hc
  rcases List.mem_map.mp hc with ⟨c0, hc0, rfl⟩
  have hc0' : c0 ∈ lower t := mem_of_mem_pyStrip _ _ hc0
  rcases List.mem_map.mp hc0' with ⟨c1, _, rfl⟩
  by_cases hsp : lowerChar c1 = ' '
  · rw [if_pos hsp]
    exact ⟨by decide, by decide⟩
  · rw [if_neg hsp]
    exact ⟨hsp, lowerChar_not_upper c1⟩

/-- Unfolding lemma for `extract` on a successful oracle outcome. -/
theorem extract_ok (t raw a p : Str) :
    extract (some (Except.ok t)) raw a p =
      if 10 ≤ (cleanTitle t).length ∧ (cleanTitle t).length ≤ 100
      then ⟨cleanTitle t, true, [], 95/100⟩
      else fallback_title (removeAuthorPrefixFn raw a) := rfl

/-- Unfolding lemma for `generate` on a successful oracle outcome. -/
theorem generate_ok (s c : Str) (req : SummaryRequest) :
    generate (some (Except.ok (s, c))) req =
      if (!(is_just_copy req.content (pyStrip s))) = true ∧
         50 ≤ (pyStrip s).length ∧ (pyStrip s).length ≤ 500
      then ⟨pyStrip s, [lower (pyStrip c)], lower (pyStrip c), 9/10, true⟩
      else fallback_summary req := rfl

/-! ### Claim theorems -/

/-- C1: for every title request and every summary request, every oracle
outcome — an exception raised by the external collaborator, an unconfigured
backend, or an output rejected by the quality gate — still yields a
well-formed result via the fallback path (never a caller-visible failure),
and the returned confidence and quality score always lie within [0,1]. -/
theorem C1_requests_always_served :
    (∀ lm raw a p, 0 ≤ (extract lm raw a p).confidence ∧
        (extract lm raw a p).confidence ≤ 1) ∧
    (∀ lm req, 0 ≤ (generate lm req).quality_score ∧
        (generate lm req).quality_score ≤ 1) ∧
    (∀ e raw a p, extract (some (Except.error e)) raw a p =
        fallback_title (removeAuthorPrefixFn raw a)) ∧
    (∀ raw a p, extract none raw a p =
        fallback_title (removeAuthorPrefixFn raw a)) ∧
    (∀ e req, generate (some (Except.error e)) req = fallback_summary req) ∧
    (∀ req, generate none req = fallback_summary req) := by
  refine ⟨?_, ?_, fun e raw a p => rfl, fun raw a p => rfl,
    fun e req => rfl, fun req => rfl⟩
  · intro lm raw a p
    rcases lm with _ | x
    · show (0:ℚ) ≤ 6/10 ∧ (6:ℚ)/10 ≤ 1
      norm_num
    · rcases x with e | t
      · show (0:ℚ) ≤ 6/10 ∧ (6:ℚ)/10 ≤ 1
        norm_num
      · rw [extract_ok]
        split
        · show (0:ℚ) ≤ 95/100 ∧ (95:ℚ)/100 ≤ 1
          norm_num
        · show (0:ℚ) ≤ 6/10 ∧ (6:ℚ)/10 ≤ 1
          norm_num
  · intro lm req
    rcases lm with _ | x
    · show (0:ℚ) ≤ 3/10 ∧ (3:ℚ)/10 ≤ 1
      norm_num
    · rcases x with e | sc
      · show (0:ℚ) ≤ 3/10 ∧ (3:ℚ)/10 ≤ 1
        norm_num
      · rcases sc with ⟨s, c⟩
        rw [generate_ok]
        split
        · show (0:ℚ) ≤ 9/10 ∧ (9:ℚ)/10 ≤ 1
          norm_num
        · show (0:ℚ) ≤ 3/10 ∧ (3:ℚ)/10 ≤ 1
          norm_num

/-- C2 counterexample: the author-mark normalizer is not idempotent — with
text `"johndoejohndoe"` and author `"johndoe"` the first application leaves
`"johndoe"`, which a second application strips again, leaving `""`. -/
theorem C2_counterexample :
    removeAuthorPrefixFn
        (removeAuthorPrefixFn ("johndoejohndoe".toList) ("johndoe".toList))
        ("johndoe".toList)
      ≠ removeAuthorPrefixFn ("johndoejohndoe".toList) ("johndoe".toList) := by
  decide

/-- C2 (amended): the author-mark normalizer is idempotent whenever its
output does not itself begin (case-insensitively) with one of the non-empty
author patterns; in that case a second application with the same author
returns the once-normalized text unchanged. -/
theorem C2_amended_idempotent_unless_rematch (x a : Str)
    (h : ∀ p ∈ [a, lower a, a.filter (fun c => c ≠ '@')],
        p = [] ∨ leadsWith (lower p) (lower (removeAuthorPrefixFn x a)) = false) :
    removeAuthorPrefixFn (removeAuthorPrefixFn x a) a = removeAuthorPrefixFn x a := by
  have hy : stripFirstPattern [a, lower a, a.filter (fun c => c ≠ '@')]
      (removeAuthorPrefixFn x a) = removeAuthorPrefixFn x a :=
    stripFirstPattern_no_match _ _ h
  show (stripFirstPattern [a, lower a, a.filter (fun c => c ≠ '@')]
      (removeAuthorPrefixFn x a)).dropWhile isSep = removeAuthorPrefixFn x a
  rw [hy]
  show ((stripFirstPattern _ x).dropWhile isSep).dropWhile isSep = _
  exact dropWhile_dropWhile_same isSep _

/-- C2 witness: a concrete instance of the amended idempotence statement. -/
theorem C2_amended_witness :
    removeAuthorPrefixFn
        (removeAuthorPrefixFn ("johndoe check this".toList) ("johndoe".toList))
        ("johndoe".toList)
      = removeAuthorPrefixFn ("johndoe check this".toList) ("johndoe".toList) :=
  C2_amended_idempotent_unless_rematch _ _ (by decide)

/-- C3 counterexample: when the text does not start with the author string
the normalizer is not always a no-op — leading separator characters are
stripped unconditionally, so `" hello"` with author `"johndoe"` becomes
`"hello"`. -/
theorem C3_counterexample :
    leadsWith (lower ("johndoe".toList)) (lower (" hello".toList)) = false ∧
    removeAuthorPrefixFn (" hello".toList) ("johndoe".toList) ≠ " hello".toList := by
  constructor
  · decide
  · decide

/-- C3 (amended): the normalizer removes a leading case-insensitive
occurrence of the author pattern together with the following separator run;
`Normalizer("johndoe: Check this out", "johndoe") = "Check this out"`; when
no author pattern matches, the text is returned with only its leading
separator characters stripped — unchanged exactly when it does not begin
with a separator character. -/
theorem C3_amended_normalizer :
    (removeAuthorPrefixFn ("johndoe: Check this out".toList) ("johndoe".toList) =
        "Check this out".toList) ∧
    (∀ text author : Str, author ≠ [] →
        leadsWith (lower author) (lower text) = true →
        removeAuthorPrefixFn text author =
          (pyStrip (text.drop author.length)).dropWhile isSep) ∧
    (∀ text author : Str,
        (∀ p ∈ [author, lower author, author.filter (fun c => c ≠ '@')],
            p = [] ∨ leadsWith (lower p) (lower text) = false) →
        removeAuthorPrefixFn text author = text.dropWhile isSep) ∧
    (∀ text author : Str,
        (∀ p ∈ [author, lower author, author.filter (fun c => c ≠ '@')],
            p = [] ∨ leadsWith (lower p) (lower text) = false) →
        (∀ c ∈ text.take 1, isSep c = false) →
        removeAuthorPrefixFn text author = text) := by
  refine ⟨by decide, ?_, ?_, ?_⟩
  · intro text author h0 h1
    have hne : (!author.isEmpty) = true := by
      rcases author with _ | ⟨c, cs⟩
      · exact absurd rfl h0
      · rfl
    unfold removeAuthorPrefixFn stripFirstPattern
    rw [hne, h1]
    rfl
  · intro text author h
    unfold removeAuthorPrefixFn
    rw [stripFirstPattern_no_match _ _ h]
  · intro text author h hh
    unfold removeAuthorPrefixFn
    rw [stripFirstPattern_no_match _ _ h]
    exact dropWhile_eq_self_of_head isSep text hh

/-- C3 witness: a concrete instance of the removal clause of the amended
normalizer statement. -/
theorem C3_amended_witness :
    removeAuthorPrefixFn ("MsJane - art drop".toList) ("MsJane".toList) =
      (pyStrip (("MsJane - art drop".toList).drop ("MsJane".toList).length)).dropWhile
        isSep :=
  C3_amended_normalizer.2.1 _ _ (by decide) (by decide)

/-- C4 counterexample: the truncator does not return every text of length at
most 80 unmodified — `"Hi. Bye."` has length 8 but is cut to its first
sentence `"Hi."`. -/
theorem C4_counterexample :
    ("Hi. Bye.".toList).length ≤ 80 ∧
    smart_truncate ("Hi. Bye.".toList) ≠ "Hi. Bye.".toList := by
  constructor
  · decide
  · decide

theorem rsplitHead_length_le (s : Str) : (rsplitHead s).length ≤ s.length := by
  unfold rsplitHead
  split
  · rw [List.length_reverse]
    have h1 : (((s.reverse).dropWhile (fun c => c ≠ ' ')).drop 1).length ≤
        ((s.reverse).dropWhile (fun c => c ≠ ' ')).length := by
      rw [List.length_drop]
      omega
    have h2 : ((s.reverse).dropWhile (fun c => c ≠ ' ')).length ≤
        (s.reverse).length :=
      (List.dropWhile_sublist _).length_le
    rw [List.length_reverse] at h2
    omega
  · exact le_refl _

theorem truncCut_length_le (x : Str) (hx : x.length ≤ 80) :
    truncCut x = x := by
  unfold truncCut
  rw [if_neg (by omega)]

theorem truncCut_length_bound (x : Str) : (truncCut x).length ≤ 83 := by
  unfold truncCut
  split
  · rw [List.length_append]
    have h1 := rsplitHead_length_le (x.take 80)
    have h2 : (x.take 80).length ≤ 80 := List.length_take_le 80 x
    have h3 : ("...".toList).length = 3 := by decide
    omega
  · rename_i h
    omega

/-- C4 (amended): the truncator's output length is at most `80 + 3` for
every input, and whenever the input has length at most 80 and contains no
sentence terminator it is returned unmodified; an input of length at most 80
that contains an interior sentence terminator may instead be cut to its
first sentence. -/
theorem C4_amended_truncator_bounds :
    (∀ x : Str, (smart_truncate x).length ≤ 80 + 3) ∧
    (∀ x : Str, x.length ≤ 80 → (∀ c ∈ x, isTerm c = false) →
        smart_truncate x = x) := by
  constructor
  · intro x
    unfold smart_truncate
    rcases hfs : firstSentence x with _ | g
    · exact truncCut_length_bound x
    · dsimp only
      split
      · rename_i hg
        omega
      · exact truncCut_length_bound x
  · intro x hx h
    have htw : x.takeWhile (fun c => !(isTerm c)) = x :=
      List.takeWhile_eq_self_iff.mpr (fun c hc => by rw [h c hc]; rfl)
    have hfs : firstSentence x = none := by
      unfold firstSentence
      rw [htw]
      by_cases h0 : x.length = 0
      · rw [if_pos h0]
      · rw [if_neg h0, if_pos rfl]
    unfold smart_truncate
    rw [hfs]
    exact truncCut_length_le x hx

/-- C4 witness: a concrete instance of the unmodified-return clause of the
amended truncator statement. -/
theorem C4_amended_witness :
    smart_truncate ("Hello wonderful world".toList) =
      "Hello wonderful world".toList :=
  C4_amended_truncator_bounds.2 _ (by decide) (by decide)

/-- C5: the copy detector reports a copy exactly when the first 50
characters of the case-folded candidate occur verbatim as a substring of the
first 200 characters of the case-folded original, and it flags the
spec's example pair. -/
theorem C5_copy_detector :
    (∀ orig cand : Str,
        is_just_copy orig cand = true ↔
          ∃ pre suf, lower (orig.take 200) = pre ++ lower (cand.take 50) ++ suf) ∧
    is_just_copy ("Check out my new shoes today".toList)
        ("Check out my new sho".toList) = true := by
  constructor
  · intro orig cand
    unfold is_just_copy
    rw [occursIn_iff]
    unfold lower
    rw [List.map_take, List.map_take]
  · decide

/-- C6: the AI-title quality gate accepts a candidate exactly when its
cleaned length lies in [10,100], returning it with confidence 0.95; a
candidate that is empty after normalization is rejected, and a candidate of
cleaned length 5 is rejected, forcing the fallback truncation with
confidence 0.6. -/
theorem C6_title_quality_gate :
    (∀ raw a p t, 10 ≤ (cleanTitle t).length → (cleanTitle t).length ≤ 100 →
        extract (some (Except.ok t)) raw a p =
          ⟨cleanTitle t, true, [], 95/100⟩) ∧
    (∀ raw a p t, ¬(10 ≤ (cleanTitle t).length ∧ (cleanTitle t).length ≤ 100) →
        extract (some (Except.ok t)) raw a p =
          fallback_title (removeAuthorPrefixFn raw a)) ∧
    (∀ raw a p t, cleanTitle t = [] →
        (extract (some (Except.ok t)) raw a p).confidence = 6/10 ∧
        (extract (some (Except.ok t)) raw a p).issues =
          ["fallback_used".toList]) ∧
    (∀ raw a p t, (cleanTitle t).length = 5 →
        (extract (some (Except.ok t)) raw a p).confidence = 6/10 ∧
        (extract (some (Except.ok t)) raw a p).title =
          smart_truncate (removeAuthorPrefixFn raw a)) := by
  refine ⟨?_, ?_, ?_, ?_⟩
  · intro raw a p t h1 h2
    rw [extract_ok, if_pos ⟨h1, h2⟩]
  · intro raw a p t h
    rw [extract_ok, if_neg h]
  · intro raw a p t h
    have hlen : ¬(10 ≤ (cleanTitle t).length ∧ (cleanTitle t).length ≤ 100) := by
      rw [h]
      simp
    rw [extract_ok, if_neg hlen]
    exact ⟨rfl, rfl⟩
  · intro raw a p t h
    have hlen : ¬(10 ≤ (cleanTitle t).length ∧ (cleanTitle t).length ≤ 100) := by
      rw [h]
      omega
    rw [extract_ok, if_neg hlen]
    exact ⟨rfl, rfl⟩

/-- C6 witness: a cleaned candidate of length 24 is accepted verbatim with
confidence 0.95. -/
theorem C6_witness :
    extract (some (Except.ok ("A memorable catchy title".toList)))
        ("raw text".toList) ("someone".toList) ("instagram".toList) =
      ⟨cleanTitle ("A memorable catchy title".toList), true, [], 95/100⟩ :=
  C6_title_quality_gate.1 _ _ _ _ (by decide) (by decide)

/-- C7: the AI-summary quality gate accepts a candidate exactly when its
stripped length lies in [50,500] and the copy detector does not flag it; an
accepted AI summary carries quality score 0.9, strictly above the rule-based
fallback's 0.3. -/
theorem C7_summary_quality_gate :
    (∀ req s c, is_just_copy req.content (pyStrip s) = false →
        50 ≤ (pyStrip s).length → (pyStrip s).length ≤ 500 →
        generate (some (Except.ok (s, c))) req =
          ⟨pyStrip s, [lower (pyStrip c)], lower (pyStrip c), 9/10, true⟩) ∧
    (∀ req s c, ¬(is_just_copy req.content (pyStrip s) = false ∧
          50 ≤ (pyStrip s).length ∧ (pyStrip s).length ≤ 500) →
        generate (some (Except.ok (s, c))) req = fallback_summary req) ∧
    (∀ req, (fallback_summary req).quality_score = 3/10 ∧
        (fallback_summary req).quality_score < 9/10) := by
  refine ⟨?_, ?_, ?_⟩
  · intro req s c h1 h2 h3
    rw [generate_ok, if_pos ⟨by rw [h1]; rfl, h2, h3⟩]
  · intro req s c h
    rw [generate_ok, if_neg ?_]
    rintro ⟨hb, h2, h3⟩
    exact h ⟨by simpa using hb, h2, h3⟩
  · intro req
    refine ⟨rfl, ?_⟩
    show (3:ℚ)/10 < 9/10
    norm_num

/-- C7 witness: a 64-character analytical summary of unrelated content is
accepted with quality score 0.9. -/
theorem C7_witness :
    generate
        (some (Except.ok
          ("An analytical look at why this piece matters for later research.".toList,
           "tech".toList)))
        ⟨"short caption".toList, "reddit".toList, [], [], 1⟩ =
      ⟨pyStrip
          ("An analytical look at why this piece matters for later research.".toList),
        [lower (pyStrip ("tech".toList))], lower (pyStrip ("tech".toList)),
        9/10, true⟩ :=
  C7_summary_quality_gate.1 _ _ _ (by decide) (by decide) (by decide)

/-- C8 counterexample: the fallback summary template always appends an
ellipsis, so for content `"Found this great tutorial on..."` the composed
summary ends in six dots, not the three claimed. -/
theorem C8_counterexample :
    (fallback_summary
        ⟨"Found this great tutorial on...".toList, "reddit".toList, [], [], 1⟩).summary
      ≠ "Saved from reddit: Found this great tutorial on...".toList := by
  decide

/-- C8 (amended): every summary request taking the fallback path — an
unconfigured backend or a raised exception — is composed as
`"Saved from {platform}: {content truncated to 200 characters}..."` with the
ellipsis always appended, quality score exactly 0.3 and `is_analytical`
false; with platform `"reddit"` and content `"Found this great tutorial on"`
the composed summary is `"Saved from reddit: Found this great tutorial on..."`. -/
theorem C8_amended_fallback_template :
    (∀ req, generate none req = fallback_summary req) ∧
    (∀ e req, generate (some (Except.error e)) req = fallback_summary req) ∧
    (∀ req, (fallback_summary req).summary =
        ("Saved from ".toList) ++ req.platform ++ (": ".toList) ++
          req.content.take 200 ++ ("...".toList) ∧
      (fallback_summary req).quality_score = 3/10 ∧
      (fallback_summary req).is_analytical = false) ∧
    (generate none
        ⟨"Found this great tutorial on".toList, "reddit".toList, [], [], 1⟩).summary
      = "Saved from reddit: Found this great tutorial on...".toList := by
  refine ⟨fun req => rfl, fun e req => rfl, fun req => ⟨rfl, rfl, rfl⟩, by decide⟩

/-- C9 counterexample: with no API key configured, the tag-generation
operation does surface missing configuration as a caller-visible error — it
rejects the request with HTTP status 503 before consulting the collaborator. -/
theorem C9_counterexample :
    generate_tags none
        (Except.ok ⟨["art".toList], ["design".toList], "kinetic".toList, none⟩)
        ⟨"caption".toList, "instagram".toList, none, none, none⟩
      = Except.error 503 := rfl

/-- C9 (amended): when no LLM credential is configured the title and summary
operations skip the external path and are still served by the fallback path,
never surfacing the missing configuration; the tag-generation operation, by
contrast, rejects every request with a 503 error when no API key is
configured. -/
theorem C9_amended_missing_config :
    (∀ raw a p, extract none raw a p =
        fallback_title (removeAuthorPrefixFn raw a)) ∧
    (∀ req, generate none req = fallback_summary req) ∧
    (∀ lm req, generate_tags none lm req = Except.error 503) := by
  exact ⟨fun raw a p => rfl, fun req => rfl, fun lm req => rfl⟩

/-- C10 counterexample: the generated vibe tag is cleaned but never checked
against the 15-term vocabulary — a generated vibe `"banana"` is returned
verbatim even though it is not a vocabulary term. -/
theorem C10_counterexample :
    generate_tags (some ("key".toList))
        (Except.ok ⟨["art".toList], ["design".toList], "banana".toList, none⟩)
        ⟨"caption".toList, "instagram".toList, none, none, none⟩
      = Except.ok ⟨⟨["art".toList], ["design".toList], "banana".toList⟩,
          85/100, none⟩ ∧
    ("banana".toList) ∉ vibeVocab := by
  exact ⟨rfl, by decide⟩

/-- C10 (amended): every successful tag response has at most two primary and
at most two contextual tags, every tag character is space-free (spaces are
replaced by hyphens) and not an ASCII uppercase letter, and the vibe tag
defaults to `"contemplative"` when the generated vibe is the empty string;
a whitespace-only generated tag can however produce an empty cleaned tag,
and a non-empty generated vibe is returned without being validated against
the 15-term vocabulary. -/
theorem C10_amended_tag_invariants (k : Str) (r : TagsRaw) (req : TagsRequest)
    (resp : TagsResponse)
    (h : generate_tags (some k) (Except.ok r) req = Except.ok resp) :
    resp.tags.primary.length ≤ 2 ∧ resp.tags.contextual.length ≤ 2 ∧
    (∀ t ∈ resp.tags.primary, ∀ c ∈ t, c ≠ ' ' ∧ isUpperChar c = false) ∧
    (∀ t ∈ resp.tags.contextual, ∀ c ∈ t, c ≠ ' ' ∧ isUpperChar c = false) ∧
    (∀ c ∈ resp.tags.vibe, c ≠ ' ' ∧ isUpperChar c = false) ∧
    (r.vibe_tag = [] → resp.tags.vibe = "contemplative".toList) := by
  have h' : (Except.ok
      (⟨⟨((r.primary_tags.filter (fun t => !t.isEmpty)).map cleanTag).take 2,
         ((r.contextual_tags.filter (fun t => !t.isEmpty)).map cleanTag).take 2,
         if r.vibe_tag.isEmpty then "contemplative".toList
         else cleanTag r.vibe_tag⟩,
        85/100, r.reasoning⟩ : TagsResponse) : Except Nat TagsResponse)
      = Except.ok resp := h
  injection h' with h''
  subst h''
  refine ⟨List.length_take_le 2 _, List.length_take_le 2 _, ?_, ?_, ?_, ?_⟩
  · intro t ht
    have ht' := List.take_subset 2 _ ht
    rcases List.mem_map.mp ht' with ⟨t0, _, rfl⟩
    exact cleanTag_chars t0
  · intro t ht
    have ht' := List.take_subset 2 _ ht
    rcases List.mem_map.mp ht' with ⟨t0, _, rfl⟩
    exact cleanTag_chars t0
  · show ∀ c ∈ (if r.vibe_tag.isEmpty then "contemplative".toList
        else cleanTag r.vibe_tag), c ≠ ' ' ∧ isUpperChar c = false
    split
    · intro c hc
      fin_cases hc <;> exact ⟨by decide, by decide⟩
    · exact cleanTag_chars r.vibe_tag
  · intro hv
    show (if r.vibe_tag.isEmpty then "contemplative".toList
        else cleanTag r.vibe_tag) = "contemplative".toList
    rw [if_pos (by rw [hv]; rfl)]

/-- C10 witness: the amended invariants at a concrete successful response. -/
theorem C10_amended_witness :
    ((⟨⟨["art".toList], ["design".toList], "kinetic".toList⟩, 85/100, none⟩ :
        TagsResponse)).tags.primary.length ≤ 2 :=
  (C10_amended_tag_invariants ("key".toList)
    ⟨["art".toList], ["design".toList], "kinetic".toList, none⟩
    ⟨"caption".toList, "instagram".toList, none, none, none⟩
    ⟨⟨["art".toList], ["design".toList], "kinetic".toList⟩, 85/100, none⟩
    rfl).1

/-- C5 witness: a concrete instance of the copy-detector characterization. -/
theorem C5_witness :
    is_just_copy ("Fresh sneaker haul".toList) ("Fresh sneaker haul".toList)
      = true :=
  (C5_copy_detector.1 _ _).mpr ⟨[], [], by decide⟩
